import Mathlib

/-!
Verification of the top-token-holders tracker service (src/index.js and
src/main.js) against its specification.

The development shallowly embeds the parts of the program the claims are
about:

* the webhook pagination enumerator `listAllWebhooks` (src/index.js 447-505),
  modelled as a fuel-bounded recursion over an abstract remote registry
  `Nat → Option (List Webhook)` (the argument is the request offset; `none`
  models a non-2xx listing response, which breaks the loop);
* the pause/resume lifecycle reconcilers (src/index.js 533-605), modelled as
  folds over the enumerated snapshot, threading the remote registry state and
  the local mirror table;
* the `/balances` ingestion pipeline (src/index.js 287-310) with intra-batch
  deduplication, the materiality filter, and the alert formatter
  `formatBalanceMessage` (src/index.js 373-403), whose displayed numeric
  components are modelled as a structure of values (the final string
  rendering through `Intl.NumberFormat` and template literals is not needed
  by any claim);
* the chain-name resolvers of both source files (src/index.js 72-139 and
  src/main.js 62-73).

JavaScript numbers are modelled as `ℚ`; a possibly-absent (`undefined`)
field is modelled as `Option`.  The JavaScript idiom `x || d` defaults on
every falsy value (absent, `0`, the empty string), which the `jsOr*` helpers
reproduce exactly.
-/

namespace TopHolders

/-- A webhook record as held by the remote registry.  Only the fields the
management code reads are modelled: `id` (deduplication, PATCH target) and
`active` (pause/resume skip test). -/
structure Webhook where
  id : String
  active : Bool
deriving DecidableEq

/-- Page size requested by `listAllWebhooks` (`const limit = 300`,
src/index.js line 451). -/
def pageLimit : Nat := 300

/-- Hard ceiling on page requests (`const maxIterations = 50`,
src/index.js line 452). -/
def maxIterations : Nat := 50

/-- Inner per-page loop of `listAllWebhooks` (src/index.js 476-482): walk the
page, appending each webhook whose id was not seen before, recording the id
as seen and counting how many ids were new.  `n` is the running `newCount`. -/
def addPage : List String → List Webhook → Nat → List Webhook →
    List String × List Webhook × Nat
  | seen, acc, n, [] => (seen, acc, n)
  | seen, acc, n, wh :: rest =>
    if wh.id ∈ seen then addPage seen acc n rest
    else addPage (wh.id :: seen) (acc ++ [wh]) (n + 1) rest

/-- The pagination loop of `listAllWebhooks` (src/index.js 455-498).  `fuel`
is the number of iterations still allowed (`maxIterations - iterations`);
each loop body issues exactly one page request, so the returned `Nat` counts
the requests made.  Exit conditions, in source order: transport failure
(`!response.ok` — modelled by `registry offset = none`), empty page, a page
with zero new ids, a short page, and fuel exhaustion. -/
def listAllWebhooksAux (registry : Nat → Option (List Webhook)) :
    Nat → Nat → List String → List Webhook → List Webhook × Nat
  | 0, _offset, _seen, acc => (acc, 0)
  | fuel + 1, offset, seen, acc =>
    match registry offset with
    | none => (acc, 1)
    | some page =>
      if page = [] then (acc, 1)
      else
        let st := addPage seen acc 0 page
        if st.2.2 = 0 then (st.2.1, 1)
        else if page.length < pageLimit then (st.2.1, 1)
        else
          let r := listAllWebhooksAux registry fuel (offset + pageLimit) st.1 st.2.1
          (r.1, r.2 + 1)

/-- `listAllWebhooks` (src/index.js 447-505): enumerate the remote registry
starting at offset 0 with empty seen-set and accumulator.  Returns the
accumulated deduplicated webhooks together with the number of page requests
issued. -/
def listAllWebhooks (registry : Nat → Option (List Webhook)) :
    List Webhook × Nat :=
  listAllWebhooksAux registry maxIterations 0 [] []

/-- Specification-side first-occurrence deduplication by webhook id, relative
to a set of already-seen ids.  Used to compare the enumerator's output with
the spec's "the page-1 set deduplicated by id". -/
def dedupById : List Webhook → List String → List Webhook
  | [], _seen => []
  | w :: ws, seen =>
    if w.id ∈ seen then dedupById ws seen
    else w :: dedupById ws (w.id :: seen)

/-- Concrete three-element page (with a repeated id) used to exercise the
enumeration theorems on a closed input. -/
def samplePage : List Webhook := [⟨"a", true⟩, ⟨"a", false⟩, ⟨"b", true⟩]

/-- Concrete registry that ignores its offset argument and always serves
`samplePage`, simulating a server that does not support offset pagination. -/
def constRegistry : Nat → Option (List Webhook) := fun _off => some samplePage

/-- A row of the local `webhooks` mirror table
(`CREATE TABLE webhooks (id TEXT PRIMARY KEY, token_address TEXT,
chain_id INTEGER, active INTEGER DEFAULT 1)`, src/index.js 48-55). -/
structure MirrorRow where
  id : String
  token_address : String
  chain_id : Nat
  active : Nat
deriving DecidableEq

/-- Effect of `UPDATE webhooks SET active = v WHERE id = i` on the local
mirror table (src/index.js 554, 591): every row whose id matches gets its
`active` column set; a table without a matching row is unchanged. -/
def mirrorSetActive (mirror : List MirrorRow) (i : String) (v : Nat) :
    List MirrorRow :=
  mirror.map fun row => if row.id = i then { row with active := v } else row

/-- Modelled interface of the remote registry: a successful
`PATCH .../webhooks/:id` with body `{"active": b}` (src/index.js 508-519)
sets the `active` flag of the webhook with that id.  The remote registry
itself is an external collaborator; this is its documented effect. -/
def patchRemote (remote : List Webhook) (i : String) (b : Bool) :
    List Webhook :=
  remote.map fun w => if w.id = i then { w with active := b } else w

/-- Loop body of `POST /setup/resume-webhooks` (src/index.js 580-598).  The
state is `((resumed, skipped, failed), remote registry, local mirror)`; `ok`
tells whether the PATCH for a given webhook id succeeds (`response.ok`). -/
def resumeStep (ok : String → Bool)
    (st : (Nat × Nat × Nat) × List Webhook × List MirrorRow) (wh : Webhook) :
    (Nat × Nat × Nat) × List Webhook × List MirrorRow :=
  if wh.active then ((st.1.1, st.1.2.1 + 1, st.1.2.2), st.2)
  else if ok wh.id then
    ((st.1.1 + 1, st.1.2.1, st.1.2.2),
      patchRemote st.2.1 wh.id true, mirrorSetActive st.2.2 wh.id 1)
  else ((st.1.1, st.1.2.1, st.1.2.2 + 1), st.2)

/-- Result of the resume handler: the JSON counters it responds with,
together with the final remote registry and local mirror states. -/
structure ResumeResult where
  resumed : Nat
  skipped : Nat
  failed : Nat
  total : Nat
  remote : List Webhook
  mirror : List MirrorRow
deriving DecidableEq

/-- `POST /setup/resume-webhooks` (src/index.js 570-605): enumerate the
remote registry (here: the registry's current content, which is what a
complete enumeration returns) and run the resume loop over that snapshot. -/
def resumeWebhooksHandler (ok : String → Bool) (remote : List Webhook)
    (mirror : List MirrorRow) : ResumeResult :=
  let st := List.foldl (resumeStep ok) ((0, 0, 0), remote, mirror) remote
  { resumed := st.1.1, skipped := st.1.2.1, failed := st.1.2.2,
    total := remote.length, remote := st.2.1, mirror := st.2.2 }

/-- Loop body of `POST /setup/pause-webhooks` (src/index.js 543-561): an
already-inactive webhook is skipped; otherwise PATCH `active = false`;
success updates the counters and the mirror, failure only increments
`failed`. -/
def pauseStep (ok : String → Bool)
    (st : (Nat × Nat × Nat) × List Webhook × List MirrorRow) (wh : Webhook) :
    (Nat × Nat × Nat) × List Webhook × List MirrorRow :=
  if !wh.active then ((st.1.1, st.1.2.1 + 1, st.1.2.2), st.2)
  else if ok wh.id then
    ((st.1.1 + 1, st.1.2.1, st.1.2.2),
      patchRemote st.2.1 wh.id false, mirrorSetActive st.2.2 wh.id 0)
  else ((st.1.1, st.1.2.1, st.1.2.2 + 1), st.2)

/-- Result of the pause handler (JSON counters plus final states). -/
structure PauseResult where
  paused : Nat
  skipped : Nat
  failed : Nat
  total : Nat
  remote : List Webhook
  mirror : List MirrorRow
deriving DecidableEq

/-- `POST /setup/pause-webhooks` (src/index.js 533-568). -/
def pauseWebhooksHandler (ok : String → Bool) (remote : List Webhook)
    (mirror : List MirrorRow) : PauseResult :=
  let st := List.foldl (pauseStep ok) ((0, 0, 0), remote, mirror) remote
  { paused := st.1.1, skipped := st.1.2.1, failed := st.1.2.2,
    total := remote.length, remote := st.2.1, mirror := st.2.2 }

/-- Concrete remote snapshot for the reconciler witnesses: one active and one
inactive webhook. -/
def sampleRemote : List Webhook := [⟨"w1", true⟩, ⟨"w2", false⟩]

/-- Concrete local mirror for the reconciler witnesses: it mirrors only
`"w2"`, currently marked inactive. -/
def sampleMirror : List MirrorRow := [⟨"w2", "0xtok", 1, 0⟩]

/-- Concrete per-id PATCH outcome for the reconciler witnesses: every PATCH
succeeds. -/
def allOk : String → Bool := fun _i => true

/-- Concrete per-id PATCH outcome where the PATCH for `"w1"` fails with a
non-2xx response and every other PATCH succeeds. -/
def failW1 : String → Bool := fun i => !(i == "w1")

/-- The `asset` object of a balance-change event.  Either field may be absent
from the payload. -/
structure Asset where
  symbol : Option String
  decimals : Option Nat
deriving DecidableEq

/-- A balance-change event as delivered to `POST /balances`.  JavaScript
numbers are modelled as `ℚ` (for `amount_delta`, a decimal string, the value
`parseFloat` yields); possibly-absent payload fields are `Option`. -/
structure BalanceChange where
  transaction_hash : String
  value_delta_usd : Option ℚ
  amount_delta : ℚ
  direction : String
  asset : Option Asset
  subscribed_address : String
deriving DecidableEq

/-- JavaScript `x || d` for a possibly-undefined number: `undefined` and `0`
are falsy, every other number is truthy. -/
def jsOrQ (v : Option ℚ) (d : ℚ) : ℚ :=
  match v with
  | none => d
  | some x => if x = 0 then d else x

/-- JavaScript `x || d` for a possibly-undefined nonnegative integer:
`undefined` and `0` are falsy. -/
def jsOrNat (v : Option Nat) (d : Nat) : Nat :=
  match v with
  | none => d
  | some x => if x = 0 then d else x

/-- JavaScript `x || d` for a possibly-undefined string: `undefined` and the
empty string are falsy. -/
def jsOrStr (v : Option String) (d : String) : String :=
  match v with
  | none => d
  | some s => if s = "" then d else s

/-- The materiality filter test `change.value_delta_usd < 100`
(src/index.js 302).  When the field is absent, the JavaScript comparison
`undefined < 100` is false, so the event is NOT dropped. -/
def materialityDrop (v : Option ℚ) : Bool :=
  match v with
  | none => false
  | some x => decide (x < 100)

/-- Severity emoji count of `formatBalanceMessage` (src/index.js 384-388):
the `if / else if` chain over the USD value. -/
def emojiCount (usdValue : ℚ) : Nat :=
  if usdValue ≥ 10000000 then 5
  else if usdValue ≥ 1000000 then 4
  else if usdValue ≥ 500000 then 3
  else if usdValue ≥ 100000 then 2
  else 1

/-- Explorer URL prefixes of `getExplorerLink` (src/index.js 360-371). -/
def explorerPrefixes : List (Nat × String) :=
  [(1, "https://etherscan.io/tx/"),
   (10, "https://optimistic.etherscan.io/tx/"),
   (56, "https://bscscan.com/tx/"),
   (137, "https://polygonscan.com/tx/"),
   (8453, "https://basescan.org/tx/"),
   (42161, "https://arbiscan.io/tx/"),
   (43114, "https://snowtrace.io/tx/")]

/-- `getExplorerLink` (src/index.js 360-371): unknown chain ids fall back to
the chain-1 (Etherscan) prefix via `explorers[chainId] || explorers[1]`. -/
def getExplorerLink (txHash : String) (chainId : Nat) : String :=
  (explorerPrefixes.lookup chainId).getD "https://etherscan.io/tx/" ++ txHash

/-- The displayed components computed by `formatBalanceMessage`
(src/index.js 373-403).  The final Markdown string interpolates exactly
these values (plus fixed glyphs/text); the string templating and
`Intl.NumberFormat` rendering carry no further logic. -/
structure FormattedAlert where
  emojiCount : Nat
  directionIn : Bool
  amount : ℚ
  symbol : String
  usdValue : ℚ
  holderShort : String
  txLink : String
deriving DecidableEq

/-- `formatBalanceMessage(change, chainId)` (src/index.js 373-403):
`usdValue = change.value_delta_usd || 0`, `symbol = change.asset?.symbol ||
"???"`, `decimals = change.asset?.decimals || 18`, `amount = parseFloat(
change.amount_delta) / 10^decimals`, severity emoji count from `usdValue`,
direction from `direction === "in"`, holder truncated to first 6 plus last 4
characters, explorer link from the chain id. -/
def formatBalanceMessage (change : BalanceChange) (chainId : Nat) :
    FormattedAlert :=
  let usdValue := jsOrQ change.value_delta_usd 0
  let symbol :=
    match change.asset with
    | none => "???"
    | some a => jsOrStr a.symbol "???"
  let decimals :=
    match change.asset with
    | none => 18
    | some a => jsOrNat a.decimals 18
  let amount := change.amount_delta / 10 ^ decimals
  let holder := change.subscribed_address
  { emojiCount := emojiCount usdValue,
    directionIn := change.direction == "in",
    amount := amount,
    symbol := symbol,
    usdValue := usdValue,
    holderShort := holder.take 6 ++ "..." ++ holder.takeRight 4,
    txLink := getExplorerLink change.transaction_hash chainId }

/-- Loop of the `POST /balances` handler (src/index.js 296-307): deduplicate
by transaction hash within the batch (the hash is recorded in the seen set
BEFORE the materiality filter runs), drop events failing the materiality
filter, format and broadcast the rest.  The accumulated alert list models
the sequence of broadcasts. -/
def ingestAux (chainId : Nat) :
    List BalanceChange → List String → List FormattedAlert →
    List String × List FormattedAlert
  | [], seen, alerts => (seen, alerts)
  | c :: rest, seen, alerts =>
    if c.transaction_hash ∈ seen then ingestAux chainId rest seen alerts
    else if materialityDrop c.value_delta_usd then
      ingestAux chainId rest (c.transaction_hash :: seen) alerts
    else
      ingestAux chainId rest (c.transaction_hash :: seen)
        (alerts ++ [formatBalanceMessage c chainId])

/-- Response of `POST /balances`: `processed` is the size of the
`processedTxs` set (src/index.js 309); `alerts` is the sequence of broadcast
messages. -/
structure IngestResult where
  processed : Nat
  alerts : List FormattedAlert
deriving DecidableEq

/-- The `POST /balances` handler (src/index.js 287-310) on an event batch. -/
def ingest (batch : List BalanceChange) (chainId : Nat) : IngestResult :=
  let r := ingestAux chainId batch [] []
  { processed := r.1.length, alerts := r.2 }

/-- Evolution of the seen-hash set alone: the dedup bookkeeping of the
ingestion loop, independent of the materiality filter. -/
def dedupKeys : List BalanceChange → List String → List String
  | [], seen => seen
  | c :: rest, seen =>
    if c.transaction_hash ∈ seen then dedupKeys rest seen
    else dedupKeys rest (c.transaction_hash :: seen)

/-- Specification-side count: the number of distinct transaction hashes in a
batch. -/
def distinctTxCount (batch : List BalanceChange) : Nat :=
  (batch.map (fun c => c.transaction_hash)).dedup.length

/-- Chain name → chain id mapping of `getChainId` in src/index.js
(lines 72-139). -/
def chainIdMap : List (String × Nat) :=
  [("abstract", 2741), ("ancient8", 888888888), ("ape_chain", 33139),
   ("arbitrum", 42161), ("arbitrum_nova", 42170), ("avalanche_c", 43114),
   ("avalanche_fuji", 43113), ("b3", 8333), ("base", 8453),
   ("base_sepolia", 84532), ("berachain", 80094), ("blast", 81457),
   ("bnb", 56), ("bob", 60808), ("boba", 288), ("celo", 42220),
   ("corn", 21000000), ("cyber", 7560), ("degen", 666666666),
   ("ethereum", 1), ("fantom", 250), ("flare", 14), ("fraxtal", 252),
   ("gnosis", 100), ("hyper_evm", 999), ("ink", 57073), ("kaia", 8217),
   ("katana", 747474), ("linea", 59144), ("lisk", 1135), ("mantle", 5000),
   ("metis", 1088), ("mode", 34443), ("monad", 143),
   ("monad_testnet", 10143), ("omni", 166), ("opbnb", 204),
   ("optimism", 10), ("peaq", 3338), ("plasma", 9745), ("polygon", 137),
   ("polygon_amoy", 80002), ("rari", 1380012617), ("redstone", 690),
   ("ronin", 2020), ("rootstock", 30), ("scroll", 534352), ("sei", 1329),
   ("sepolia", 11155111), ("shape", 360), ("soneium", 1868), ("sonic", 146),
   ("superposition", 55244), ("superseed", 5330), ("swellchain", 1923),
   ("unichain", 130), ("wemix", 1111), ("world", 480), ("xai", 660279),
   ("zero_network", 543210), ("zkevm", 1101), ("zksync", 324),
   ("zora", 7777777)]

/-- ASCII lowercasing of `String.prototype.toLowerCase()`, written over the
character list so that it evaluates inside the kernel. -/
def strToLower (s : String) : String :=
  ⟨s.data.map Char.toLower⟩

/-- `getChainId` of src/index.js (lines 72-139): lowercase the name, look it
up; unknown names yield `null` (`map[...] || null`), modelled as `none`. -/
def getChainId (blockchain : String) : Option Nat :=
  chainIdMap.lookup (strToLower blockchain)

/-- Chain name → chain id mapping of `getChainId` in src/main.js
(lines 62-73). -/
def chainIdMapMain : List (String × Nat) :=
  [("ethereum", 1), ("optimism", 10), ("bnb", 56), ("polygon", 137),
   ("base", 8453), ("arbitrum", 42161), ("avalanche_c", 43114)]

/-- `getChainId` of src/main.js (lines 62-73): lowercase the name, look it
up; unknown names fall back to chain id 1 (`map[...] || 1`). -/
def getChainIdMain (blockchain : String) : Nat :=
  (chainIdMapMain.lookup (strToLower blockchain)).getD 1

/-- Concrete event at the materiality boundary: `value_delta_usd` exactly
100. -/
def c5ev : BalanceChange :=
  { transaction_hash := "0xaaa", value_delta_usd := some 100,
    amount_delta := 1000000000000000000, direction := "in",
    asset := some ⟨some "FOO", some 18⟩,
    subscribed_address := "0xdeadbeef00000000000000000000000000000001" }

/-- Concrete event strictly below the materiality threshold. -/
def c5evLow : BalanceChange :=
  { transaction_hash := "0xbb1", value_delta_usd := some 50,
    amount_delta := 7, direction := "out",
    asset := some ⟨some "FOO", some 18⟩,
    subscribed_address := "0xdeadbeef00000000000000000000000000000002" }

/-- Concrete event whose asset explicitly supplies `decimals = 0`. -/
def c7ev : BalanceChange :=
  { transaction_hash := "0xccc", value_delta_usd := some 250000,
    amount_delta := 5, direction := "in",
    asset := some ⟨some "FOO", some 0⟩,
    subscribed_address := "0xdeadbeef00000000000000000000000000000003" }

/-- Concrete event whose asset omits `decimals`. -/
def c7evNoDec : BalanceChange :=
  { transaction_hash := "0xddd", value_delta_usd := some 300,
    amount_delta := 9, direction := "in",
    asset := some ⟨some "BAR", none⟩,
    subscribed_address := "0xdeadbeef00000000000000000000000000000004" }

/-- Concrete event with no `value_delta_usd` field and no asset at all. -/
def c10ev : BalanceChange :=
  { transaction_hash := "0xeee", value_delta_usd := none,
    amount_delta := 3, direction := "out", asset := none,
    subscribed_address := "0xdeadbeef00000000000000000000000000000005" }

theorem addPage_acc (page : List Webhook) :
    ∀ seen acc n, (addPage seen acc n page).2.1 = acc ++ dedupById page seen := by
  induction page with
  | nil => intro seen acc n; simp [addPage, dedupById]
  | cons wh rest ih =>
    intro seen acc n
    by_cases h : wh.id ∈ seen
    · simp [addPage, dedupById, h, ih]
    · simp [addPage, dedupById, h, ih]

theorem addPage_count (page : List Webhook) :
    ∀ seen acc n, (addPage seen acc n page).2.2 = n + (dedupById page seen).length := by
  induction page with
  | nil => intro seen acc n; simp [addPage, dedupById]
  | cons wh rest ih =>
    intro seen acc n
    by_cases h : wh.id ∈ seen
    · simp [addPage, dedupById, h, ih]
    · simp [addPage, dedupById, h, ih]; omega

theorem addPage_seen_mem (page : List Webhook) :
    ∀ seen acc n x, x ∈ (addPage seen acc n page).1 ↔
      x ∈ page.map Webhook.id ∨ x ∈ seen := by
  induction page with
  | nil => intro seen acc n x; simp [addPage]
  | cons wh rest ih =>
    intro seen acc n x
    by_cases h : wh.id ∈ seen
    · simp only [addPage, if_pos h, ih, List.map_cons, List.mem_cons]
      constructor
      · rintro (hx | hx)
        · exact Or.inl (Or.inr hx)
        · exact Or.inr hx
      · rintro ((rfl | hx) | hx)
        · exact Or.inr h
        · exact Or.inl hx
        · exact Or.inr hx
    · simp only [addPage, if_neg h, ih, List.map_cons, List.mem_cons]
      tauto

theorem dedupById_eq_nil (page : List Webhook) :
    ∀ seen, (∀ w ∈ page, w.id ∈ seen) → dedupById page seen = [] := by
  induction page with
  | nil => intro seen _; rfl
  | cons wh rest ih =>
    intro seen h
    have h1 : wh.id ∈ seen := h wh (by simp)
    simp only [dedupById, if_pos h1]
    exact ih seen fun w hw => h w (by simp [hw])

theorem dedupById_ne_nil (page : List Webhook) (h : page ≠ []) :
    dedupById page [] ≠ [] := by
  cases page with
  | nil => exact absurd rfl h
  | cons w ws => simp [dedupById]

theorem listAllWebhooksAux_step_some (registry : Nat → Option (List Webhook))
    (fuel offset : Nat) (seen : List String) (acc page : List Webhook)
    (h : registry offset = some page) :
    listAllWebhooksAux registry (fuel + 1) offset seen acc =
      (if page = [] then (acc, 1)
       else
        let st := addPage seen acc 0 page
        if st.2.2 = 0 then (st.2.1, 1)
        else if page.length < pageLimit then (st.2.1, 1)
        else
          let r := listAllWebhooksAux registry fuel (offset + pageLimit) st.1 st.2.1
          (r.1, r.2 + 1)) := by
  rw [listAllWebhooksAux, h]

theorem aux_requests_le (registry : Nat → Option (List Webhook)) :
    ∀ fuel offset seen acc,
      (listAllWebhooksAux registry fuel offset seen acc).2 ≤ fuel := by
  intro fuel
  induction fuel with
  | zero => intro offset seen acc; simp [listAllWebhooksAux]
  | succ fuel ih =>
    intro offset seen acc
    cases hreg : registry offset with
    | none => rw [listAllWebhooksAux, hreg]; simp
    | some page =>
      rw [listAllWebhooksAux_step_some registry fuel offset seen acc page hreg]
      by_cases hemp : page = []
      · simp [hemp]
      · simp only [if_neg hemp]
        by_cases hc : (addPage seen acc 0 page).2.2 = 0
        · simp [hc]
        · simp only [if_neg hc]
          by_cases hlen : page.length < pageLimit
          · simp [hlen]
          · simp only [if_neg hlen]
            have := ih (offset + pageLimit) (addPage seen acc 0 page).1
              (addPage seen acc 0 page).2.1
            omega

theorem addPage_nodup (page : List Webhook) :
    ∀ seen acc n, (∀ w ∈ acc, w.id ∈ seen) → (acc.map Webhook.id).Nodup →
      (∀ w ∈ (addPage seen acc n page).2.1, w.id ∈ (addPage seen acc n page).1) ∧
        ((addPage seen acc n page).2.1.map Webhook.id).Nodup := by
  induction page with
  | nil =>
    intro seen acc n h1 h2
    exact ⟨h1, h2⟩
  | cons wh rest ih =>
    intro seen acc n h1 h2
    by_cases h : wh.id ∈ seen
    · simp only [addPage, if_pos h]
      exact ih seen acc n h1 h2
    · simp only [addPage, if_neg h]
      apply ih
      · intro w hw
        rcases List.mem_append.mp hw with hw | hw
        · exact List.mem_cons_of_mem _ (h1 w hw)
        · simp only [List.mem_singleton] at hw
          subst hw
          exact List.mem_cons_self _ _
      · rw [List.map_append]
        refine h2.append (by simp) ?_
        intro x hx hx2
        simp only [List.map_cons, List.map_nil, List.mem_singleton] at hx2
        subst hx2
        rcases List.mem_map.mp hx with ⟨w, hw, hwid⟩
        exact h (hwid ▸ h1 w hw)

theorem aux_nodup (registry : Nat → Option (List Webhook)) :
    ∀ fuel offset seen acc, (∀ w ∈ acc, w.id ∈ seen) →
      (acc.map Webhook.id).Nodup →
      ((listAllWebhooksAux registry fuel offset seen acc).1.map Webhook.id).Nodup := by
  intro fuel
  induction fuel with
  | zero => intro offset seen acc _ h2; exact h2
  | succ fuel ih =>
    intro offset seen acc h1 h2
    cases hreg : registry offset with
    | none => rw [listAllWebhooksAux, hreg]; simpa using h2

    | some page =>
      rw [listAllWebhooksAux_step_some registry fuel offset seen acc page hreg]
      have hinv := addPage_nodup page seen acc 0 h1 h2
      by_cases hemp : page = []
      · simpa [hemp] using h2
      · simp only [if_neg hemp]
        by_cases hc : (addPage seen acc 0 page).2.2 = 0
        · simpa [hc] using hinv.2
        · simp only [if_neg hc]
          by_cases hlen : page.length < pageLimit
          · simpa [hlen] using hinv.2
          · simp only [if_neg hlen]
            exact ih (offset + pageLimit) _ _ hinv.1 hinv.2

/-- C2: against a simulated remote registry that ignores the offset parameter
and always returns the same first page, `listAllWebhooks` returns exactly the
first page deduplicated by id, and terminates after at most one extra page
request beyond the first (2 requests total), strictly below the iteration
ceiling. -/
theorem c2_offset_ignoring_registry_terminates
    (registry : Nat → Option (List Webhook)) (P : List Webhook)
    (hreg : ∀ off, registry off = some P) :
    (listAllWebhooks registry).1 = dedupById P [] ∧
      (listAllWebhooks registry).2 ≤ 2 ∧
      (listAllWebhooks registry).2 < maxIterations := by
  have hmax : maxIterations = 49 + 1 := rfl
  have hstep1 := listAllWebhooksAux_step_some registry 49 0 [] [] P (hreg 0)
  by_cases hemp : P = []
  · have hres : listAllWebhooks registry = ([], 1) := by
      rw [listAllWebhooks, hmax, hstep1, if_pos hemp]
    subst hemp
    rw [hres]
    exact ⟨rfl, by norm_num, by norm_num [maxIterations]⟩
  · have hd0 : (dedupById P []).length ≠ 0 := by
      have h := dedupById_ne_nil P hemp
      simpa [List.length_eq_zero] using h
    have hcnt : (addPage [] [] 0 P).2.2 = (dedupById P []).length := by
      simpa using addPage_count P [] [] 0
    have hacc : (addPage [] [] 0 P).2.1 = dedupById P [] := by
      simpa using addPage_acc P [] [] 0
    have hcnt0 : ¬(addPage [] [] 0 P).2.2 = 0 := by rw [hcnt]; exact hd0
    by_cases hshort : P.length < pageLimit
    · have hres : listAllWebhooks registry = ((addPage [] [] 0 P).2.1, 1) := by
        rw [listAllWebhooks, hmax, hstep1, if_neg hemp]
        simp only [if_neg hcnt0, if_pos hshort]
      rw [hres, hacc]
      exact ⟨rfl, by norm_num, by norm_num [maxIterations]⟩
    · have hsub : ∀ w ∈ P, w.id ∈ (addPage [] [] 0 P).1 := by
        intro w hw
        exact (addPage_seen_mem P [] [] 0 w.id).2 (Or.inl (List.mem_map_of_mem _ hw))
      have hd2 : dedupById P (addPage [] [] 0 P).1 = [] :=
        dedupById_eq_nil P _ hsub
      have hcnt2 : (addPage (addPage [] [] 0 P).1 (addPage [] [] 0 P).2.1 0 P).2.2 = 0 := by
        rw [addPage_count, hd2]; rfl
      have hacc2 : (addPage (addPage [] [] 0 P).1 (addPage [] [] 0 P).2.1 0 P).2.1
          = (addPage [] [] 0 P).2.1 := by
        rw [addPage_acc, hd2, List.append_nil]
      have hstep2 := listAllWebhooksAux_step_some registry 48 (0 + pageLimit)
        (addPage [] [] 0 P).1 (addPage [] [] 0 P).2.1 P (hreg _)
      have hres : listAllWebhooks registry = ((addPage [] [] 0 P).2.1, 2) := by
        rw [listAllWebhooks, hmax, hstep1, if_neg hemp]
        simp only [if_neg hcnt0, if_neg hshort]
        rw [show (49 : Nat) = 48 + 1 from rfl, hstep2, if_neg hemp]
        simp only [if_pos hcnt2]
        rw [hacc2]
      rw [hres, hacc]
      exact ⟨rfl, by norm_num, by norm_num [maxIterations]⟩

/-- Witness for C2: the theorem applied to the concrete offset-ignoring
registry `constRegistry` serving `samplePage`. -/
theorem c2_offset_ignoring_registry_terminates_witness :
    (listAllWebhooks constRegistry).1 = dedupById samplePage [] ∧
      (listAllWebhooks constRegistry).2 ≤ 2 ∧
      (listAllWebhooks constRegistry).2 < maxIterations :=
  c2_offset_ignoring_registry_terminates constRegistry samplePage fun _ => rfl

/-- C9: for every behaviour of the remote registry, `listAllWebhooks` returns
a finite list in which every webhook id occurs at most once, and the number
of page requests issued never exceeds the hard ceiling of 50 iterations. -/
theorem c9_enumeration_always_nodup_and_bounded
    (registry : Nat → Option (List Webhook)) :
    ((listAllWebhooks registry).1.map Webhook.id).Nodup ∧
      (listAllWebhooks registry).2 ≤ maxIterations :=
  ⟨aux_nodup registry maxIterations 0 [] [] (by simp) (by simp),
   aux_requests_le registry maxIterations 0 [] []⟩

theorem resume_foldl_counts (ok : String → Bool) :
    ∀ (l : List Webhook) (c1 c2 c3 : Nat) (rem : List Webhook)
      (mir : List MirrorRow),
      (List.foldl (resumeStep ok) ((c1, c2, c3), rem, mir) l).1 =
        (c1 + l.countP (fun w => !w.active && ok w.id),
         c2 + l.countP (fun w => w.active),
         c3 + l.countP (fun w => !w.active && !ok w.id)) := by
  intro l
  induction l with
  | nil => intro c1 c2 c3 rem mir; simp
  | cons wh rest ih =>
    intro c1 c2 c3 rem mir
    rw [List.foldl_cons]
    cases hwa : wh.active <;> cases hok : ok wh.id <;>
      simp [resumeStep, hwa, hok, ih, List.countP_cons, Prod.ext_iff] <;>
      omega

theorem pause_foldl_counts (ok : String → Bool) :
    ∀ (l : List Webhook) (c1 c2 c3 : Nat) (rem : List Webhook)
      (mir : List MirrorRow),
      (List.foldl (pauseStep ok) ((c1, c2, c3), rem, mir) l).1 =
        (c1 + l.countP (fun w => w.active && ok w.id),
         c2 + l.countP (fun w => !w.active),
         c3 + l.countP (fun w => w.active && !ok w.id)) := by
  intro l
  induction l with
  | nil => intro c1 c2 c3 rem mir; simp
  | cons wh rest ih =>
    intro c1 c2 c3 rem mir
    rw [List.foldl_cons]
    cases hwa : wh.active <;> cases hok : ok wh.id <;>
      simp [pauseStep, hwa, hok, ih, List.countP_cons, Prod.ext_iff] <;>
      omega

theorem resume_countP_sum (ok : String → Bool) :
    ∀ l : List Webhook,
      l.countP (fun w => !w.active && ok w.id) + l.countP (fun w => w.active) +
        l.countP (fun w => !w.active && !ok w.id) = l.length := by
  intro l
  induction l with
  | nil => simp
  | cons wh rest ih =>
    cases hwa : wh.active <;> cases hok : ok wh.id <;>
      simp [List.countP_cons, hwa, hok] <;> omega

theorem pause_countP_sum (ok : String → Bool) :
    ∀ l : List Webhook,
      l.countP (fun w => w.active && ok w.id) + l.countP (fun w => !w.active) +
        l.countP (fun w => w.active && !ok w.id) = l.length := by
  intro l
  induction l with
  | nil => simp
  | cons wh rest ih =>
    cases hwa : wh.active <;> cases hok : ok wh.id <;>
      simp [List.countP_cons, hwa, hok] <;> omega

theorem resume_foldl_remote (ok : String → Bool) :
    ∀ (l : List Webhook) (st : (Nat × Nat × Nat) × List Webhook × List MirrorRow),
      (List.foldl (resumeStep ok) st l).2.1 =
        List.foldl
          (fun R wh => if !wh.active && ok wh.id then patchRemote R wh.id true else R)
          st.2.1 l := by
  intro l
  induction l with
  | nil => intro st; rfl
  | cons wh rest ih =>
    intro st
    rw [List.foldl_cons, List.foldl_cons, ih]
    congr 1
    cases hwa : wh.active <;> cases hok : ok wh.id <;>
      simp [resumeStep, hwa, hok]

theorem patch_foldl (p : Webhook → Bool) :
    ∀ (l R : List Webhook),
      List.foldl (fun R wh => if p wh then patchRemote R wh.id true else R) R l =
        R.map (fun w =>
          if l.any (fun wh => p wh && (wh.id == w.id)) then
            { w with active := true }
          else w) := by
  intro l
  induction l with
  | nil => intro R; simp
  | cons wh rest ih =>
    intro R
    rw [List.foldl_cons]
    by_cases hp : p wh = true
    · rw [if_pos hp, ih, patchRemote, List.map_map]
      congr 1
      funext w
      by_cases hid : w.id = wh.id
      · have hbeq : (wh.id == w.id) = true := by simp [hid]
        simp [Function.comp, hid, hp, hbeq, List.any_cons]
      · have hbeq : (wh.id == w.id) = false := by
          simp only [beq_eq_false_iff_ne, ne_eq]
          exact fun hh => hid hh.symm
        simp [Function.comp, hid, hp, hbeq, List.any_cons]
    · rw [if_neg hp, ih]
      congr 1
      funext w
      have hp' : p wh = false := by
        cases hpv : p wh
        · rfl
        · exact absurd hpv hp
      simp [hp', List.any_cons]

theorem resume_remote_final (ok : String → Bool) (remote : List Webhook)
    (mirror : List MirrorRow) :
    (resumeWebhooksHandler ok remote mirror).remote =
      remote.map (fun w =>
        if remote.any (fun wh => (!wh.active && ok wh.id) && (wh.id == w.id)) then
          { w with active := true }
        else w) := by
  show (List.foldl (resumeStep ok) ((0, 0, 0), remote, mirror) remote).2.1 = _
  rw [resume_foldl_remote]
  exact patch_foldl (fun w => !w.active && ok w.id) remote remote

theorem resume_resumed_eq (ok : String → Bool) (remote : List Webhook)
    (mirror : List MirrorRow) :
    (resumeWebhooksHandler ok remote mirror).resumed =
      remote.countP (fun w => !w.active && ok w.id) := by
  have h := resume_foldl_counts ok remote 0 0 0 remote mirror
  show (List.foldl (resumeStep ok) ((0, 0, 0), remote, mirror) remote).1.1 = _
  rw [h]
  simp

/-- C3: in the all-remote resume operation, an already-active webhook is
counted as skipped with no remote update and no mirror change; an inactive
webhook whose PATCH succeeds is counted as resumed and its mirror row (when
one exists) gets `active = 1`; and running the whole resume handler a second
time on the states the first run produced resumes nothing (no double
counting), the handler being a total function (it never errors). -/
theorem c3_resume_idempotent (ok : String → Bool) :
    (∀ (c1 c2 c3 : Nat) (rem : List Webhook) (mir : List MirrorRow)
        (wh : Webhook), wh.active = true →
        resumeStep ok ((c1, c2, c3), rem, mir) wh =
          ((c1, c2 + 1, c3), rem, mir)) ∧
    (∀ (c1 c2 c3 : Nat) (rem : List Webhook) (mir : List MirrorRow)
        (wh : Webhook), wh.active = false → ok wh.id = true →
        resumeStep ok ((c1, c2, c3), rem, mir) wh =
          ((c1 + 1, c2, c3), patchRemote rem wh.id true,
            mirrorSetActive mir wh.id 1)) ∧
    (∀ (mir : List MirrorRow) (i : String) (row : MirrorRow),
        row ∈ mir → row.id = i →
        { row with active := 1 } ∈ mirrorSetActive mir i 1) ∧
    (∀ (remote : List Webhook) (mirror : List MirrorRow),
        (resumeWebhooksHandler ok
            (resumeWebhooksHandler ok remote mirror).remote
            (resumeWebhooksHandler ok remote mirror).mirror).resumed = 0) := by
  refine ⟨?_, ?_, ?_, ?_⟩
  · intro c1 c2 c3 rem mir wh hwa
    simp [resumeStep, hwa]
  · intro c1 c2 c3 rem mir wh hwa hok
    simp [resumeStep, hwa, hok]
  · intro mir i row hmem hid
    have h : (fun row => if row.id = i then { row with active := 1 } else row) row
        ∈ mirrorSetActive mir i 1 := List.mem_map_of_mem _ hmem
    simpa [hid] using h
  · intro remote mirror
    rw [resume_resumed_eq, resume_remote_final, List.countP_map]
    apply List.countP_eq_zero.mpr
    intro w hw
    simp only [Function.comp_apply]
    by_cases hany :
        remote.any (fun wh => (!wh.active && ok wh.id) && (wh.id == w.id)) = true
    · simp [hany]
    · rw [if_neg hany]
      intro hq
      exact hany (List.any_eq_true.mpr ⟨w, hw, by simp [hq]⟩)

/-- Witness for C3 at the concrete snapshot `sampleRemote` (one active, one
inactive webhook), mirror `sampleMirror` and the all-successful PATCH
outcome `allOk`. -/
theorem c3_resume_idempotent_witness :
    resumeStep allOk ((0, 0, 0), sampleRemote, sampleMirror) ⟨"w1", true⟩ =
        ((0, 1, 0), sampleRemote, sampleMirror) ∧
    resumeStep allOk ((0, 0, 0), sampleRemote, sampleMirror) ⟨"w2", false⟩ =
        ((1, 0, 0), patchRemote sampleRemote "w2" true,
          mirrorSetActive sampleMirror "w2" 1) ∧
    (⟨"w2", "0xtok", 1, 1⟩ : MirrorRow) ∈ mirrorSetActive sampleMirror "w2" 1 ∧
    (resumeWebhooksHandler allOk
        (resumeWebhooksHandler allOk sampleRemote sampleMirror).remote
        (resumeWebhooksHandler allOk sampleRemote sampleMirror).mirror).resumed
      = 0 :=
  ⟨(c3_resume_idempotent allOk).1 0 0 0 sampleRemote sampleMirror
      ⟨"w1", true⟩ rfl,
   (c3_resume_idempotent allOk).2.1 0 0 0 sampleRemote sampleMirror
      ⟨"w2", false⟩ rfl rfl,
   (c3_resume_idempotent allOk).2.2.1 sampleMirror "w2" ⟨"w2", "0xtok", 1, 0⟩
      (by simp [sampleMirror]) rfl,
   (c3_resume_idempotent allOk).2.2.2 sampleRemote sampleMirror⟩

/-- C4: a failed (non-2xx) remote update for one item in a pause/resume batch
only increments that item's `failed` count (state otherwise untouched), the
loop continues with the remaining items, and the handler still produces the
counters record, whose paused/resumed + skipped + failed parts always sum to
the total. -/
theorem c4_transport_failure_isolated (ok : String → Bool) :
    (∀ (c1 c2 c3 : Nat) (rem : List Webhook) (mir : List MirrorRow)
        (wh : Webhook), wh.active = true → ok wh.id = false →
        pauseStep ok ((c1, c2, c3), rem, mir) wh =
          ((c1, c2, c3 + 1), rem, mir)) ∧
    (∀ (rest : List Webhook)
        (st : (Nat × Nat × Nat) × List Webhook × List MirrorRow)
        (wh : Webhook), wh.active = true → ok wh.id = false →
        List.foldl (pauseStep ok) st (wh :: rest) =
          List.foldl (pauseStep ok) ((st.1.1, st.1.2.1, st.1.2.2 + 1), st.2)
            rest) ∧
    (∀ (c1 c2 c3 : Nat) (rem : List Webhook) (mir : List MirrorRow)
        (wh : Webhook), wh.active = false → ok wh.id = false →
        resumeStep ok ((c1, c2, c3), rem, mir) wh =
          ((c1, c2, c3 + 1), rem, mir)) ∧
    (∀ (remote : List Webhook) (mirror : List MirrorRow),
        (pauseWebhooksHandler ok remote mirror).paused +
          (pauseWebhooksHandler ok remote mirror).skipped +
          (pauseWebhooksHandler ok remote mirror).failed =
          (pauseWebhooksHandler ok remote mirror).total) ∧
    (∀ (remote : List Webhook) (mirror : List MirrorRow),
        (resumeWebhooksHandler ok remote mirror).resumed +
          (resumeWebhooksHandler ok remote mirror).skipped +
          (resumeWebhooksHandler ok remote mirror).failed =
          (resumeWebhooksHandler ok remote mirror).total) := by
  refine ⟨?_, ?_, ?_, ?_, ?_⟩
  · intro c1 c2 c3 rem mir wh hwa hok
    simp [pauseStep, hwa, hok]
  · intro rest st wh hwa hok
    rw [List.foldl_cons]
    congr 1
    simp [pauseStep, hwa, hok]
  · intro c1 c2 c3 rem mir wh hwa hok
    simp [resumeStep, hwa, hok]
  · intro remote mirror
    have h := pause_foldl_counts ok remote 0 0 0 remote mirror
    have hs := pause_countP_sum ok remote
    simp only [pauseWebhooksHandler, h]
    simpa using hs
  · intro remote mirror
    have h := resume_foldl_counts ok remote 0 0 0 remote mirror
    have hs := resume_countP_sum ok remote
    simp only [resumeWebhooksHandler, h]
    simpa using hs

/-- Witness for C4 at the concrete snapshot `sampleRemote`, mirror
`sampleMirror`, and the PATCH outcome `failW1` in which the update for
webhook `"w1"` fails. -/
theorem c4_transport_failure_isolated_witness :
    pauseStep failW1 ((0, 0, 0), sampleRemote, sampleMirror) ⟨"w1", true⟩ =
        ((0, 0, 1), sampleRemote, sampleMirror) ∧
    List.foldl (pauseStep failW1) ((0, 0, 0), sampleRemote, sampleMirror)
        [⟨"w1", true⟩, ⟨"w2", false⟩] =
      List.foldl (pauseStep failW1) ((0, 0, 1), sampleRemote, sampleMirror)
        [⟨"w2", false⟩] ∧
    resumeStep failW1 ((0, 0, 0), sampleRemote, sampleMirror) ⟨"w1", false⟩ =
        ((0, 0, 1), sampleRemote, sampleMirror) ∧
    (pauseWebhooksHandler failW1 sampleRemote sampleMirror).paused +
        (pauseWebhooksHandler failW1 sampleRemote sampleMirror).skipped +
        (pauseWebhooksHandler failW1 sampleRemote sampleMirror).failed =
        (pauseWebhooksHandler failW1 sampleRemote sampleMirror).total ∧
    (resumeWebhooksHandler failW1 sampleRemote sampleMirror).resumed +
        (resumeWebhooksHandler failW1 sampleRemote sampleMirror).skipped +
        (resumeWebhooksHandler failW1 sampleRemote sampleMirror).failed =
        (resumeWebhooksHandler failW1 sampleRemote sampleMirror).total :=
  ⟨(c4_transport_failure_isolated failW1).1 0 0 0 sampleRemote sampleMirror
      ⟨"w1", true⟩ rfl rfl,
   (c4_transport_failure_isolated failW1).2.1 [⟨"w2", false⟩]
      ((0, 0, 0), sampleRemote, sampleMirror) ⟨"w1", true⟩ rfl rfl,
   (c4_transport_failure_isolated failW1).2.2.1 0 0 0 sampleRemote sampleMirror
      ⟨"w1", false⟩ rfl rfl,
   (c4_transport_failure_isolated failW1).2.2.2.1 sampleRemote sampleMirror,
   (c4_transport_failure_isolated failW1).2.2.2.2 sampleRemote sampleMirror⟩

theorem ingestAux_seen (chainId : Nat) :
    ∀ (l : List BalanceChange) (seen : List String)
      (alerts : List FormattedAlert),
      (ingestAux chainId l seen alerts).1 = dedupKeys l seen := by
  intro l
  induction l with
  | nil => intro seen alerts; rfl
  | cons c rest ih =>
    intro seen alerts
    by_cases h : c.transaction_hash ∈ seen
    · simp [ingestAux, dedupKeys, h, ih]
    · by_cases hd : materialityDrop c.value_delta_usd = true
      · simp [ingestAux, dedupKeys, h, hd, ih]
      · simp [ingestAux, dedupKeys, h, hd, ih]

theorem dedupKeys_mem :
    ∀ (l : List BalanceChange) (seen : List String) (x : String),
      x ∈ dedupKeys l seen ↔
        x ∈ l.map (fun c => c.transaction_hash) ∨ x ∈ seen := by
  intro l
  induction l with
  | nil => intro seen x; simp [dedupKeys]
  | cons c rest ih =>
    intro seen x
    by_cases h : c.transaction_hash ∈ seen
    · simp only [dedupKeys, if_pos h, ih, List.map_cons, List.mem_cons]
      constructor
      · rintro (hx | hx)
        · exact Or.inl (Or.inr hx)
        · exact Or.inr hx
      · rintro ((rfl | hx) | hx)
        · exact Or.inr h
        · exact Or.inl hx
        · exact Or.inr hx
    · simp only [dedupKeys, if_neg h, ih, List.map_cons, List.mem_cons]
      tauto

theorem dedupKeys_nodup :
    ∀ (l : List BalanceChange) (seen : List String),
      seen.Nodup → (dedupKeys l seen).Nodup := by
  intro l
  induction l with
  | nil => intro seen h; exact h
  | cons c rest ih =>
    intro seen h
    by_cases hm : c.transaction_hash ∈ seen
    · simp only [dedupKeys, if_pos hm]
      exact ih seen h
    · simp only [dedupKeys, if_neg hm]
      exact ih _ (List.nodup_cons.mpr ⟨hm, h⟩)

/-- C1: the `processed` count returned by the `/balances` handler equals the
number of distinct transaction hashes in the batch, whatever the materiality
filter does with the individual events (the usd values do not appear in the
count) and independently of delivery outcomes (broadcasting has no effect on
`processedTxs`). -/
theorem c1_processed_eq_distinct_hashes (batch : List BalanceChange)
    (chainId : Nat) :
    (ingest batch chainId).processed = distinctTxCount batch := by
  show (ingestAux chainId batch [] []).1.length = _
  rw [ingestAux_seen]
  have hnd : (dedupKeys batch []).Nodup := dedupKeys_nodup batch [] List.nodup_nil
  have hfin : (dedupKeys batch []).toFinset =
      (batch.map (fun c => c.transaction_hash)).toFinset := by
    ext x
    simp [List.mem_toFinset, dedupKeys_mem]
  calc (dedupKeys batch []).length
      = (dedupKeys batch []).toFinset.card :=
        (List.toFinset_card_of_nodup hnd).symm
    _ = (batch.map (fun c => c.transaction_hash)).toFinset.card := by
        rw [hfin]
    _ = distinctTxCount batch := List.card_toFinset _

/-- C5: an event surviving intra-batch deduplication with `value_delta_usd`
exactly 100 is retained — the loop continues with the formatted alert
appended to the broadcast list — while one with a value strictly below 100 is
dropped by the materiality filter, producing no alert (its hash is still
recorded). -/
theorem c5_materiality_boundary (c : BalanceChange) (rest : List BalanceChange)
    (chainId : Nat) (seen : List String) (alerts : List FormattedAlert)
    (hs : c.transaction_hash ∉ seen) :
    (c.value_delta_usd = some 100 →
      ingestAux chainId (c :: rest) seen alerts =
        ingestAux chainId rest (c.transaction_hash :: seen)
          (alerts ++ [formatBalanceMessage c chainId])) ∧
    (∀ q : ℚ, c.value_delta_usd = some q → q < 100 →
      ingestAux chainId (c :: rest) seen alerts =
        ingestAux chainId rest (c.transaction_hash :: seen) alerts) := by
  constructor
  · intro hv
    have hdrop : materialityDrop c.value_delta_usd = false := by
      rw [hv]
      simp [materialityDrop]
    simp [ingestAux, hs, hdrop]
  · intro q hv hq
    have hdrop : materialityDrop c.value_delta_usd = true := by
      rw [hv]
      simpa [materialityDrop] using hq
    simp [ingestAux, hs, hdrop]

/-- Witness for C5 on concrete events: `c5ev` (usd exactly 100) is retained
and formatted, `c5evLow` (usd 50) is dropped with no alert. -/
theorem c5_materiality_boundary_witness :
    ingestAux 1 [c5ev] [] [] =
      ingestAux 1 [] [c5ev.transaction_hash] [formatBalanceMessage c5ev 1] ∧
    ingestAux 1 [c5evLow] [] [] =
      ingestAux 1 [] [c5evLow.transaction_hash] [] :=
  ⟨(c5_materiality_boundary c5ev [] 1 [] [] (by simp)).1 rfl,
   (c5_materiality_boundary c5evLow [] 1 [] [] (by simp)).2 50 rfl
     (by norm_num)⟩

/-- C6: the severity emoji count is monotone non-decreasing in the USD value
and takes exactly the values 1..5 on the five tiers, each lower bound
inclusive. -/
theorem c6_emoji_count_tiers :
    (∀ x y : ℚ, x ≤ y → emojiCount x ≤ emojiCount y) ∧
    (∀ x : ℚ, x < 100000 → emojiCount x = 1) ∧
    (∀ x : ℚ, 100000 ≤ x → x < 500000 → emojiCount x = 2) ∧
    (∀ x : ℚ, 500000 ≤ x → x < 1000000 → emojiCount x = 3) ∧
    (∀ x : ℚ, 1000000 ≤ x → x < 10000000 → emojiCount x = 4) ∧
    (∀ x : ℚ, 10000000 ≤ x → emojiCount x = 5) := by
  refine ⟨?_, ?_, ?_, ?_, ?_, ?_⟩
  · intro x y hxy
    unfold emojiCount
    split_ifs <;> first | (exfalso; linarith) | norm_num
  · intro x h
    unfold emojiCount
    split_ifs <;> first | (exfalso; linarith) | norm_num
  · intro x h1 h2
    unfold emojiCount
    split_ifs <;> first | (exfalso; linarith) | norm_num
  · intro x h1 h2
    unfold emojiCount
    split_ifs <;> first | (exfalso; linarith) | norm_num
  · intro x h1 h2
    unfold emojiCount
    split_ifs <;> first | (exfalso; linarith) | norm_num
  · intro x h
    unfold emojiCount
    split_ifs <;> first | (exfalso; linarith) | norm_num

/-- Witness for C6 at one concrete value per tier plus one monotonicity
instance. -/
theorem c6_emoji_count_tiers_witness :
    emojiCount 0 ≤ emojiCount 250000 ∧
    emojiCount 99999 = 1 ∧ emojiCount 100000 = 2 ∧ emojiCount 500000 = 3 ∧
    emojiCount 1000000 = 4 ∧ emojiCount 10000000 = 5 :=
  ⟨c6_emoji_count_tiers.1 0 250000 (by norm_num),
   c6_emoji_count_tiers.2.1 99999 (by norm_num),
   c6_emoji_count_tiers.2.2.1 100000 (by norm_num) (by norm_num),
   c6_emoji_count_tiers.2.2.2.1 500000 (by norm_num) (by norm_num),
   c6_emoji_count_tiers.2.2.2.2.1 1000000 (by norm_num) (by norm_num),
   c6_emoji_count_tiers.2.2.2.2.2 10000000 (by norm_num)⟩

/-- C7 counterexample: for the concrete event `c7ev`, whose asset explicitly
supplies `decimals = 0`, the formatter divides by `10^18`, not by
`10^0 = 1` as the claim requires — `decimals: 0` is falsy in JavaScript, so
`change.asset?.decimals || 18` replaces it with the default. -/
theorem c7_zero_decimals_counterexample :
    (formatBalanceMessage c7ev 1).amount = c7ev.amount_delta / 10 ^ (18 : Nat) ∧
    ¬(formatBalanceMessage c7ev 1).amount = c7ev.amount_delta / 10 ^ (0 : Nat) := by
  have hamt : (formatBalanceMessage c7ev 1).amount = 5 / 10 ^ (18 : Nat) := by
    norm_num [formatBalanceMessage, c7ev, jsOrNat]
  constructor
  · rw [hamt]
    norm_num [c7ev]
  · rw [hamt]
    norm_num [c7ev]

/-- C7 amended: the displayed amount is `amountDelta / 10^decimals` with
`decimals` taken from the asset when it supplies a NONZERO value; the
divisor defaults to `10^18` when the asset is absent, omits `decimals`, or
supplies `decimals = 0` (zero being falsy in `asset?.decimals || 18`). -/
theorem c7_decimals_default (change : BalanceChange) (chainId : Nat) :
    (∀ (a : Asset) (d : Nat), change.asset = some a → a.decimals = some d →
      d ≠ 0 →
      (formatBalanceMessage change chainId).amount =
        change.amount_delta / 10 ^ d) ∧
    (∀ a : Asset, change.asset = some a → a.decimals = some 0 →
      (formatBalanceMessage change chainId).amount =
        change.amount_delta / 10 ^ (18 : Nat)) ∧
    (∀ a : Asset, change.asset = some a → a.decimals = none →
      (formatBalanceMessage change chainId).amount =
        change.amount_delta / 10 ^ (18 : Nat)) ∧
    (change.asset = none →
      (formatBalanceMessage change chainId).amount =
        change.amount_delta / 10 ^ (18 : Nat)) := by
  refine ⟨?_, ?_, ?_, ?_⟩
  · intro a d ha hd hdz
    simp [formatBalanceMessage, ha, hd, jsOrNat, hdz]
  · intro a ha hd
    simp [formatBalanceMessage, ha, hd, jsOrNat]
  · intro a ha hd
    simp [formatBalanceMessage, ha, hd, jsOrNat]
  · intro ha
    simp [formatBalanceMessage, ha]

/-- Witness for the amended C7 at concrete events covering all four cases:
supplied nonzero decimals, supplied zero decimals, omitted decimals, absent
asset. -/
theorem c7_decimals_default_witness :
    (formatBalanceMessage c5ev 1).amount = c5ev.amount_delta / 10 ^ (18 : Nat) ∧
    (formatBalanceMessage c7ev 1).amount = c7ev.amount_delta / 10 ^ (18 : Nat) ∧
    (formatBalanceMessage c7evNoDec 1).amount =
      c7evNoDec.amount_delta / 10 ^ (18 : Nat) ∧
    (formatBalanceMessage c10ev 1).amount =
      c10ev.amount_delta / 10 ^ (18 : Nat) :=
  ⟨(c7_decimals_default c5ev 1).1 ⟨some "FOO", some 18⟩ 18 rfl rfl
      (by norm_num),
   (c7_decimals_default c7ev 1).2.1 ⟨some "FOO", some 0⟩ rfl rfl,
   (c7_decimals_default c7evNoDec 1).2.2.1 ⟨some "BAR", none⟩ rfl rfl,
   (c7_decimals_default c10ev 1).2.2.2 rfl⟩

/-- C8 counterexample: `"notachain"` lies outside both chain maps, yet the
src/main.js resolver returns the numeric chain id 1 for it, contradicting
the claim that unmapped names always resolve to an "unsupported" marker and
that no unmapped name resolves to chain id 1. -/
theorem c8_unknown_name_counterexample :
    chainIdMap.lookup "notachain" = none ∧
    chainIdMapMain.lookup "notachain" = none ∧
    getChainIdMain "notachain" = 1 := by
  refine ⟨?_, ?_, ?_⟩ <;> rfl

/-- C8 amended: the two code paths implement different policies.  The
src/index.js resolver returns `none` (no numeric id, no fallback) exactly on
names outside its mapping; the src/main.js resolver instead falls back to
chain id 1 on names outside its mapping. -/
theorem c8_chain_resolution_policies :
    (∀ s : String, chainIdMap.lookup (strToLower s) = none →
      getChainId s = none) ∧
    (∀ (s : String) (n : Nat), chainIdMap.lookup (strToLower s) = some n →
      getChainId s = some n) ∧
    (∀ s : String, chainIdMapMain.lookup (strToLower s) = none →
      getChainIdMain s = 1) := by
  refine ⟨?_, ?_, ?_⟩
  · intro s h
    simp [getChainId, h]
  · intro s n h
    simp [getChainId, h]
  · intro s h
    simp [getChainIdMain, h]

/-- Witness for the amended C8 at concrete names. -/
theorem c8_chain_resolution_policies_witness :
    getChainId "zzz" = none ∧ getChainId "base" = some 8453 ∧
    getChainIdMain "zzz" = 1 :=
  ⟨c8_chain_resolution_policies.1 "zzz" rfl,
   c8_chain_resolution_policies.2.1 "base" 8453 rfl,
   c8_chain_resolution_policies.2.2 "zzz" rfl⟩

/-- C10: an event with no `value_delta_usd` field is not dropped by the
materiality filter (`undefined < 100` is false); it is formatted and
broadcast, and the formatter defaults the missing USD value to 0, giving a
single severity emoji. -/
theorem c10_missing_usd_retained (c : BalanceChange)
    (hv : c.value_delta_usd = none) :
    materialityDrop c.value_delta_usd = false ∧
    (∀ (chainId : Nat) (rest : List BalanceChange) (seen : List String)
        (alerts : List FormattedAlert), c.transaction_hash ∉ seen →
      ingestAux chainId (c :: rest) seen alerts =
        ingestAux chainId rest (c.transaction_hash :: seen)
          (alerts ++ [formatBalanceMessage c chainId])) ∧
    (∀ chainId : Nat, (formatBalanceMessage c chainId).usdValue = 0 ∧
        (formatBalanceMessage c chainId).emojiCount = 1) := by
  have hdrop : materialityDrop c.value_delta_usd = false := by
    rw [hv]
    rfl
  refine ⟨hdrop, ?_, ?_⟩
  · intro chainId rest seen alerts hs
    simp [ingestAux, hs, hdrop]
  · intro chainId
    constructor
    · simp [formatBalanceMessage, hv, jsOrQ]
    · show emojiCount (jsOrQ c.value_delta_usd 0) = 1
      rw [hv]
      norm_num [jsOrQ, emojiCount]

/-- Witness for C10 at the concrete event `c10ev`, which has no
`value_delta_usd`. -/
theorem c10_missing_usd_retained_witness :
    materialityDrop c10ev.value_delta_usd = false ∧
    ingestAux 1 [c10ev] [] [] =
      ingestAux 1 [] [c10ev.transaction_hash] [formatBalanceMessage c10ev 1] ∧
    (formatBalanceMessage c10ev 1).usdValue = 0 ∧
    (formatBalanceMessage c10ev 1).emojiCount = 1 :=
  ⟨(c10_missing_usd_retained c10ev rfl).1,
   (c10_missing_usd_retained c10ev rfl).2.1 1 [] [] [] (by simp),
   (c10_missing_usd_retained c10ev rfl).2.2 1⟩

end TopHolders
